import Mathlib

/-!
Verification of the entitlement/session subsystem of the mib-v5 web
application: the plan resolver (`getBestPlanId` in
`src/app/lib/auth/memberstack.ts`), the session manager
(`createSession` / `getSession` / `destroySession` in
`src/app/lib/auth/memberstack-client.ts`), the static plan catalog
(`PLANS` in the auth types module) and the subscription-status route
handler (`GET` of the subscription route, including `getPlanDetails`
and the per-month usage counter).

Modelling conventions:
* machine strings are Lean `String` (a list of characters); JavaScript
  `String.prototype.includes` is modelled by `strContains` and
  `toLowerCase` by `lowerStr` (ASCII case mapping, which coincides with
  the JS behaviour on the ASCII plan identifiers involved);
* `Date` values are modelled as natural-number millisecond timestamps;
* the pluggable session store (`set`/`get`/`delete`) is modelled as an
  association list with at most one binding per key (`storeSet`
  overwrites, `storeDelete` removes);
* asynchronous I/O is modelled by explicit parameters: the fetch of the
  order history is an `Option (List Order)` argument (`none` = network
  or HTTP failure, which the code degrades to zero usage), and "now" is
  passed explicitly;
* JavaScript `Number(...)` applied to the components of a `DD-MM-YYYY`
  date string is modelled by `parseDigits`, which agrees with `Number`
  on all-digit components and returns `none` (the `NaN` outcome, which
  the comparison in the code rejects) otherwise.
-/

namespace Mib

/-- Boolean test that `p` is a prefix of the second list (character lists). -/
def leadsWith : List Char → List Char → Bool
  | [], _ => true
  | _ :: _, [] => false
  | p :: ps, c :: cs => p == c && leadsWith ps cs

/-- Boolean substring test on character lists: does the second list contain
the first as a contiguous sublist? -/
def listContains (pat : List Char) : List Char → Bool
  | [] => pat.isEmpty
  | c :: rest => leadsWith pat (c :: rest) || listContains pat rest

/-- Models JavaScript `s.includes(pat)` (substring containment). -/
def strContains (s pat : String) : Bool :=
  listContains pat.data s.data

/-- Models JavaScript `s.toLowerCase()` on the ASCII range. -/
def lowerStr (s : String) : String :=
  ⟨s.data.map Char.toLower⟩

/-- The fixed (pattern, mapped canonical id) rule list of `getBestPlanId`
(`src/app/lib/auth/memberstack.ts`, lines 122-138), highest tier first. -/
def hierarchy : List (String × String) :=
  [("portfolio", "pln_portfolio-builder-fb6b0fzp"),
   ("office-team", "pln_portfolio-builder-fb6b0fzp"),
   ("team", "pln_portfolio-builder-fb6b0fzp"),
   ("premium", "pln_portfolio-builder-fb6b0fzp"),
   ("unlimited", "pln_portfolio-builder-fb6b0fzp"),
   ("advanced", "pln_advanced-ni690fz3"),
   ("pro", "pln_advanced-ni690fz3"),
   ("essentials", "pln_essentials-vb1k04zy"),
   ("starter", "pln_essentials-vb1k04zy"),
   ("basic", "pln_basic--n5180oor"),
   ("free", "pln_basic--n5180oor")]

/-- The first five hierarchy rules: the top (Portfolio Builder) tier. -/
def topRules : List (String × String) :=
  [("portfolio", "pln_portfolio-builder-fb6b0fzp"),
   ("office-team", "pln_portfolio-builder-fb6b0fzp"),
   ("team", "pln_portfolio-builder-fb6b0fzp"),
   ("premium", "pln_portfolio-builder-fb6b0fzp"),
   ("unlimited", "pln_portfolio-builder-fb6b0fzp")]

/-- The remaining hierarchy rules (Advanced, Essentials, Free tiers). -/
def lowRules : List (String × String) :=
  [("advanced", "pln_advanced-ni690fz3"),
   ("pro", "pln_advanced-ni690fz3"),
   ("essentials", "pln_essentials-vb1k04zy"),
   ("starter", "pln_essentials-vb1k04zy"),
   ("basic", "pln_basic--n5180oor"),
   ("free", "pln_basic--n5180oor")]

/-- Patterns of the top (Portfolio Builder) tier. -/
def topTierPatterns : List String :=
  ["portfolio", "office-team", "team", "premium", "unlimited"]

/-- Patterns of the tiers below the top tier. -/
def lowerTierPatterns : List String :=
  ["advanced", "pro", "essentials", "starter", "basic", "free"]

/-- `activePlanIds.find(id => id.toLowerCase().includes(pattern))` succeeds
for some input string (only the existence of a match feeds the result). -/
def matchesAny (ids : List String) (pat : String) : Bool :=
  ids.any (fun id => strContains (lowerStr id) pat)

/-- Models the final `return activePlanIds[0] || null` of `getBestPlanId`:
`undefined` (empty list) and the falsy empty string both yield `null`. -/
def fallbackFirst (ids : List String) : Option String :=
  match ids with
  | [] => none
  | s :: _ => if s = "" then none else some s

/-- The rule-walking loop of `getBestPlanId`: first rule whose pattern
occurs (case-insensitively) in some input string wins. -/
def resolvePlan (rules : List (String × String)) (ids : List String) : Option String :=
  match rules with
  | [] => fallbackFirst ids
  | r :: rest => if matchesAny ids r.1 then some r.2 else resolvePlan rest ids

/-- `MemberstackClient.getBestPlanId` (`src/app/lib/auth/memberstack.ts`,
lines 116-151). -/
def getBestPlanId (ids : List String) : Option String :=
  resolvePlan hierarchy ids

/-- A `PLANS` catalog entry (auth types module). -/
structure Plan where
  id : String
  name : String
  tier : Nat
  suburbReports : Int
  propertyReports : Int
  features : List String
  deriving DecidableEq, Repr

/-- `PLANS['pln_basic--n5180oor']` (free tier). -/
def PLANS_basic : Plan :=
  ⟨"pln_basic--n5180oor", "Free", 0, 0, 0,
   ["5 AI property matches", "Basic suburb reports", "Limited filters"]⟩

/-- `PLANS['pln_essentials-vb1k04zy']`. -/
def PLANS_essentials : Plan :=
  ⟨"pln_essentials-vb1k04zy", "Essentials", 1, 2, 5,
   ["Unlimited AI property matches", "2 suburb reports/month", "5 property reports/month"]⟩

/-- `PLANS['pln_advanced-ni690fz3']`. -/
def PLANS_advanced : Plan :=
  ⟨"pln_advanced-ni690fz3", "Advanced", 2, 20, 30,
   ["Unlimited AI property matches", "20 suburb reports/month", "30 property reports/month",
    "All filters + CSV export"]⟩

/-- `PLANS['pln_portfolio-builder-fb6b0fzp']` (quota -1 = unlimited). -/
def PLANS_portfolio : Plan :=
  ⟨"pln_portfolio-builder-fb6b0fzp", "Portfolio Builder", 3, -1, -1,
   ["Unlimited everything", "Priority support", "Custom reports"]⟩

/-- Lookup among the four own keys of the `PLANS` catalog.  The code's
membership test is the JavaScript `in` operator, which is additionally
true for property names inherited from `Object.prototype`; that full
test is modelled by `PLANS_index` and `getPlanDetailsJS` below, while
`PLANS_lookup` covers the own-key part. -/
def PLANS_lookup (pid : String) : Option Plan :=
  if pid = "pln_basic--n5180oor" then some PLANS_basic
  else if pid = "pln_essentials-vb1k04zy" then some PLANS_essentials
  else if pid = "pln_advanced-ni690fz3" then some PLANS_advanced
  else if pid = "pln_portfolio-builder-fb6b0fzp" then some PLANS_portfolio
  else none

/-- `getPlanDetails` of the subscription route (`src/unnamed/part_007`,
lines 252-275), valued in `Plan` and therefore restricted to ids that are
not inherited `Object.prototype` property names (on those the JS `in`
test sends the code down the `PLANS[planId]` branch with an inherited
member that is no catalog entry — `getPlanDetailsJS` below is the
faithful version, and `getPlanDetailsJS_agrees` shows the two agree
everywhere off the prototype names); the name-fragment tests are
case-sensitive `includes`. -/
def getPlanDetails (planId : Option String) : Plan :=
  match planId with
  | none => PLANS_basic
  | some pid =>
    match PLANS_lookup pid with
    | some p => p
    | none =>
      if strContains pid "portfolio" then PLANS_portfolio
      else if strContains pid "advanced" then PLANS_advanced
      else if strContains pid "essentials" then PLANS_essentials
      else PLANS_basic

/-- The property names of `Object.prototype` (ECMAScript standard,
including the Annex B accessor methods present in Node): for each of
these the JavaScript `in` operator answers true on a plain object
literal such as `PLANS`, although none is an own key of the catalog. -/
def protoProps : List String :=
  ["constructor", "hasOwnProperty", "isPrototypeOf", "propertyIsEnumerable",
   "toLocaleString", "toString", "valueOf", "__proto__",
   "__defineGetter__", "__defineSetter__", "__lookupGetter__", "__lookupSetter__"]

/-- What `PLANS[planId]` evaluates to when `planId in PLANS` holds: a
genuine catalog entry for an own key, or the member inherited from
`Object.prototype` (a function, or the prototype object itself for
`__proto__` — in any case not a plan record) for an inherited name. -/
inductive PropValue where
  | catalogEntry (p : Plan)
  | inherited (name : String)
  deriving DecidableEq, Repr

/-- Faithful model of the guarded read
`planId in PLANS ? PLANS[planId] : absent`: own keys yield their catalog
entry, names inherited from `Object.prototype` yield the inherited
member, anything else is absent. -/
def PLANS_index (pid : String) : Option PropValue :=
  match PLANS_lookup pid with
  | some p => some (PropValue.catalogEntry p)
  | none =>
    if protoProps.contains pid then some (PropValue.inherited pid) else none

/-- `getPlanDetails` of the subscription route with the
`planId in PLANS` test modelled faithfully to the JS `in` operator (own
keys and inherited `Object.prototype` names). -/
def getPlanDetailsJS (planId : Option String) : PropValue :=
  match planId with
  | none => PropValue.catalogEntry PLANS_basic
  | some pid =>
    match PLANS_index pid with
    | some v => v
    | none =>
      if strContains pid "portfolio" then PropValue.catalogEntry PLANS_portfolio
      else if strContains pid "advanced" then PropValue.catalogEntry PLANS_advanced
      else if strContains pid "essentials" then PropValue.catalogEntry PLANS_essentials
      else PropValue.catalogEntry PLANS_basic

/-- `getPlanDescription` of the subscription route. -/
def getPlanDescription (planName : String) : String :=
  if planName = "Portfolio Builder" then
    "Unlimited access to all Microburbs features and reports"
  else if planName = "Advanced" then
    "Extended access with 20 suburb reports and 30 property reports per month"
  else if planName = "Essentials" then
    "Basic access with 2 suburb reports and 5 property reports per month"
  else "Basic access to Microburbs features"

/-- `User` of the auth types module. -/
structure User where
  id : String
  email : String
  firstName : String
  lastName : String
  activePlans : List String
  bestPlanId : Option String
  memberstackId : String
  deriving DecidableEq, Repr

/-- `UserSession` of the auth types module; `Date` fields are
millisecond timestamps. -/
structure UserSession where
  id : String
  userEmail : String
  memberstackId : String
  firstName : String
  lastName : String
  activePlans : List String
  bestPlanId : Option String
  createdAt : Nat
  lastAccessed : Nat
  expiresAt : Nat
  isActive : Bool
  deriving DecidableEq, Repr

/-- `sessionStore.get`: lookup by session id. -/
def storeGet (store : List (String × UserSession)) (sid : String) : Option UserSession :=
  (store.find? (fun kv => kv.1 == sid)).map Prod.snd

/-- `sessionStore.delete`: remove the binding for a session id. -/
def storeDelete (store : List (String × UserSession)) (sid : String) :
    List (String × UserSession) :=
  store.filter (fun kv => kv.1 != sid)

/-- `sessionStore.set`: bind a session id to a record (overwriting). -/
def storeSet (store : List (String × UserSession)) (sid : String) (s : UserSession) :
    List (String × UserSession) :=
  (sid, s) :: storeDelete store sid

/-- The mutable state seen by the session manager: the backing store plus
the `mib_session` cookie of the calling browser (none = cookie absent). -/
structure SessState where
  store : List (String × UserSession)
  cookie : Option String
  deriving DecidableEq, Repr

/-- `SESSION_DURATION_MS = 24 * 60 * 60 * 1000`. -/
def SESSION_DURATION_MS : Nat := 24 * 60 * 60 * 1000

/-- The session record built by `createSession`:
`createdAt = lastAccessed = now`, `expiresAt = now + SESSION_DURATION_MS`,
`isActive = true`. -/
def mkSession (u : User) (sid : String) (now : Nat) : UserSession :=
  ⟨sid, u.email, u.memberstackId, u.firstName, u.lastName, u.activePlans,
   u.bestPlanId, now, now, now + SESSION_DURATION_MS, true⟩

/-- `createSession` (`src/app/lib/auth/memberstack-client.ts`, lines
458-498): deletes the record referenced by any existing cookie, stores the
fresh record, and sets the cookie to the fresh id (`sid`, the generated
uuid, and `now` are explicit parameters). -/
def createSession (st : SessState) (u : User) (sid : String) (now : Nat) :
    String × SessState :=
  let store₁ :=
    match st.cookie with
    | some old => storeDelete st.store old
    | none => st.store
  (sid, ⟨storeSet store₁ sid (mkSession u sid now), some sid⟩)

/-- `getSession` (same file, lines 500-534): no cookie → none; dangling
cookie → clear cookie, none; `!isActive || expiresAt < now` → delete
record, clear cookie, none; otherwise refresh `lastAccessed`, rewrite the
record and return it. -/
def getSession (st : SessState) (now : Nat) : Option UserSession × SessState :=
  match st.cookie with
  | none => (none, st)
  | some sid =>
    match storeGet st.store sid with
    | none => (none, ⟨st.store, none⟩)
    | some s =>
      if s.isActive = false ∨ s.expiresAt < now then
        (none, ⟨storeDelete st.store sid, none⟩)
      else
        (some { s with lastAccessed := now },
         ⟨storeSet st.store sid { s with lastAccessed := now }, some sid⟩)

/-- `getCurrentUser` (same file, lines 536-552). -/
def getCurrentUser (st : SessState) (now : Nat) : Option User × SessState :=
  match getSession st now with
  | (none, st₁) => (none, st₁)
  | (some s, st₁) =>
    (some ⟨s.id, s.userEmail, s.firstName, s.lastName, s.activePlans,
           s.bestPlanId, s.memberstackId⟩, st₁)

/-- `destroySession` (same file, lines 554-570): if a cookie is present,
mark the referenced record inactive, delete it, and clear the cookie;
with no cookie only the (absent) cookie is cleared. -/
def destroySession (st : SessState) : SessState :=
  match st.cookie with
  | none => ⟨st.store, none⟩
  | some sid =>
    let store₁ :=
      match storeGet st.store sid with
      | some s => storeSet st.store sid { s with isActive := false }
      | none => st.store
    ⟨storeDelete store₁ sid, none⟩

/-- An order record returned by the upstream `user-orders` fetch. -/
structure Order where
  report_category : String
  date : String
  deriving DecidableEq, Repr

/-- Models JavaScript `split('-')` on the character list of a string. -/
def splitDashAux : List Char → List Char → List String
  | [], acc => [⟨acc.reverse⟩]
  | c :: rest, acc =>
    if c = '-' then ⟨acc.reverse⟩ :: splitDashAux rest []
    else splitDashAux rest (c :: acc)

/-- Models JavaScript `date.split('-')`. -/
def splitDash (s : String) : List String :=
  splitDashAux s.data []

/-- Accumulator loop of `parseDigits`. -/
def parseDigitsAux : List Char → Nat → Option Nat
  | [], acc => some acc
  | c :: rest, acc =>
    if c.isDigit then parseDigitsAux rest (acc * 10 + (c.toNat - 48))
    else none

/-- Models JavaScript `Number(component)` for the date components: agrees
with `Number` on non-empty all-digit components; any other component maps
to `none` (the `NaN` outcome, rejected by the `===` comparisons). -/
def parseDigits (s : String) : Option Nat :=
  match s.data with
  | [] => none
  | l => parseDigitsAux l 0

/-- The month component of `order.date.split('-').map(Number)`
(`DD-MM-YYYY`, so index 1). -/
def monthOf (date : String) : Option Nat :=
  ((splitDash date).get? 1).bind parseDigits

/-- The year component (index 2). -/
def yearOf (date : String) : Option Nat :=
  ((splitDash date).get? 2).bind parseDigits

/-- The guard `year === currentYear && month - 1 === currentMonth` of the
subscription route, with `cm` the 0-based `getMonth()` value; over
integers `month - 1 = cm` is `month = cm + 1`. -/
def orderInMonth (date : String) (cm cy : Nat) : Bool :=
  match monthOf date, yearOf date with
  | some m, some y => y == cy && m == cm + 1
  | _, _ => false

/-- One iteration of the `orders.forEach` usage-counting loop
(`src/unnamed/part_007`, lines 323-333); the pair is
(propertyReportsUsed, suburbReportsUsed). -/
def countStep (cm cy : Nat) (acc : Nat × Nat) (o : Order) : Nat × Nat :=
  if orderInMonth o.date cm cy then
    if o.report_category = "Property" then (acc.1 + 1, acc.2)
    else if o.report_category = "Suburb" then (acc.1, acc.2 + 1)
    else acc
  else acc

/-- The whole usage-counting loop over the fetched orders. -/
def countOrders (orders : List Order) (cm cy : Nat) : Nat × Nat :=
  orders.foldl (countStep cm cy) (0, 0)

/-- The remaining-quota computation of the subscription route
(lines 343-349): `limit === -1 ? -1 : Math.max(0, limit - used)`. -/
def reportsLeft (limit used : Int) : Int :=
  if limit = -1 then -1 else max 0 (limit - used)

/-- The `plan` part of `SubscriptionData`. -/
structure PlanInfo where
  id : String
  name : String
  tier : Nat
  description : String
  deriving DecidableEq, Repr

/-- The `usage` part of `SubscriptionData`. -/
structure UsageInfo where
  propertyReportsUsed : Nat
  propertyReportsLimit : Int
  propertyReportsLeft : Int
  suburbReportsUsed : Nat
  suburbReportsLimit : Int
  suburbReportsLeft : Int
  deriving DecidableEq, Repr

/-- The `features` part of `SubscriptionData`. -/
structure FeatureInfo where
  suburbFinder : String
  propertyFinder : String
  csvExport : Bool
  prioritySupport : Bool
  deriving DecidableEq, Repr

/-- `SubscriptionData` of the subscription route. -/
structure SubscriptionData where
  plan : PlanInfo
  usage : UsageInfo
  features : FeatureInfo
  deriving DecidableEq, Repr

/-- The JSON response of the subscription route handler: HTTP status plus
the body fields it can carry. -/
structure SubResponse where
  status : Nat
  success : Bool
  error : Option String
  subscription : Option SubscriptionData
  deriving DecidableEq, Repr

/-- The subscription-status `GET` handler (`src/unnamed/part_007`, lines
291-389). `user` is the result of `getCurrentUser`; `ordersFetch` is the
outcome of the upstream order-history fetch (`none` = non-2xx or network
failure, degraded to zero usage); `cm`/`cy` are `getMonth()` (0-based) and
`getFullYear()` of "now". -/
def subscriptionGET (user : Option User) (ordersFetch : Option (List Order))
    (cm cy : Nat) : SubResponse :=
  match user with
  | none => ⟨401, false, some "Not authenticated", none⟩
  | some u =>
    let planDetails := getPlanDetails u.bestPlanId
    let counts :=
      match ordersFetch with
      | some orders => countOrders orders cm cy
      | none => (0, 0)
    let propertyReportsLimit := planDetails.propertyReports
    let suburbReportsLimit := planDetails.suburbReports
    let propertyReportsLeft := reportsLeft propertyReportsLimit (counts.1 : Int)
    let suburbReportsLeft := reportsLeft suburbReportsLimit (counts.2 : Int)
    let isUnlimited : Bool := decide (planDetails.tier ≥ 3)
    let hasAdvancedFeatures : Bool := decide (planDetails.tier ≥ 2)
    ⟨200, true, none,
     some ⟨⟨planDetails.id, planDetails.name, planDetails.tier,
            getPlanDescription planDetails.name⟩,
           ⟨counts.1, propertyReportsLimit, propertyReportsLeft,
            counts.2, suburbReportsLimit, suburbReportsLeft⟩,
           ⟨if isUnlimited || hasAdvancedFeatures then "unlimited" else "limited",
            if isUnlimited || hasAdvancedFeatures then "unlimited" else "limited",
            hasAdvancedFeatures, isUnlimited⟩⟩⟩

/-- Sample identity used to populate witness states. -/
def uOld : User := ⟨"u0", "e0@x", "F0", "L0", [], none, "m0"⟩

/-- Sample identity for a first login. -/
def uOne : User := ⟨"u1", "e1@x", "F1", "L1", [], none, "m1"⟩

/-- Sample identity for a second login. -/
def uTwo : User := ⟨"u2", "e2@x", "F2", "L2", [], none, "m2"⟩

/-- A witness browser state: one stored session, referenced by the cookie. -/
def stDemo : SessState := ⟨[("old-sid", mkSession uOld "old-sid" 5)], some "old-sid"⟩

/-- A stored session whose expiry timestamp is exactly 100 and which is
still flagged active. -/
def sExpireEq : UserSession := ⟨"sid", "e@x", "ms", "F", "L", [], none, 0, 0, 100, true⟩

/-- A browser state holding `sExpireEq` under the cookie's session id. -/
def stExpireEq : SessState := ⟨[("sid", sExpireEq)], some "sid"⟩

/-! ## Helper lemmas -/

/-- If every rule in a prefix of the rule list maps to the same id `v` and
some rule of that prefix matches, the walk stops inside the prefix and
returns `v`. -/
lemma resolvePlan_prefix_const (v : String) :
    ∀ (r₁ r₂ : List (String × String)) (ids : List String),
      (∀ r ∈ r₁, r.2 = v) →
      (∃ r, r ∈ r₁ ∧ matchesAny ids r.1 = true) →
      resolvePlan (r₁ ++ r₂) ids = some v := by
  intro r₁
  induction r₁ with
  | nil =>
    intro r₂ ids _ hex
    rcases hex with ⟨r, hr, _⟩
    exact absurd hr (List.not_mem_nil r)
  | cons hd tl ih =>
    intro r₂ ids hall hex
    by_cases h : matchesAny ids hd.1 = true
    · have hv : hd.2 = v := hall hd (by simp)
      simp [resolvePlan, h, hv]
    · have hstep : resolvePlan ((hd :: tl) ++ r₂) ids = resolvePlan (tl ++ r₂) ids := by
        simp [resolvePlan, h]
      rw [hstep]
      apply ih
      · intro r hr
        exact hall r (by simp [hr])
      · rcases hex with ⟨r, hr, hm⟩
        rcases List.mem_cons.mp hr with heq | hr'
        · exact absurd (heq ▸ hm) h
        · exact ⟨r, hr', hm⟩

/-- If no rule matches, the walk falls through to the
`activePlanIds[0] || null` fallback. -/
lemma resolvePlan_no_match :
    ∀ (rules : List (String × String)) (ids : List String),
      (∀ r ∈ rules, matchesAny ids r.1 = false) →
      resolvePlan rules ids = fallbackFirst ids := by
  intro rules
  induction rules with
  | nil => intro ids _; rfl
  | cons hd tl ih =>
    intro ids hall
    have h : matchesAny ids hd.1 = false := hall hd (by simp)
    have hstep : resolvePlan (hd :: tl) ids = resolvePlan tl ids := by
      simp [resolvePlan, h]
    rw [hstep]
    exact ih ids (fun r hr => hall r (by simp [hr]))

/-- A filter whose predicate fails on every element yields the empty list. -/
lemma filter_nil_of_false {α : Type} (p : α → Bool) :
    ∀ l : List α, (∀ a ∈ l, p a = false) → l.filter p = [] := by
  intro l
  induction l with
  | nil => intro _; rfl
  | cons hd tl ih =>
    intro hall
    have h : p hd = false := hall hd (by simp)
    have htl : tl.filter p = [] := ih (fun a ha => hall a (by simp [ha]))
    simp [List.filter, h, htl]

/-! ## Claim theorems -/

/-- Claim C1: for every set of active plan strings in which some string
matches (case-insensitive substring) a top-tier pattern and some string
matches a lower-tier pattern, `getBestPlanId` returns the top-tier
canonical id `pln_portfolio-builder-fb6b0fzp`. -/
theorem getBestPlanId_top_tier_precedence (ids : List String)
    (htop : ∃ s, s ∈ ids ∧ ∃ p, p ∈ topTierPatterns ∧ strContains (lowerStr s) p = true)
    (_hlow : ∃ s, s ∈ ids ∧ ∃ p, p ∈ lowerTierPatterns ∧ strContains (lowerStr s) p = true) :
    getBestPlanId ids = some "pln_portfolio-builder-fb6b0fzp" := by
  obtain ⟨s, hs, p, hp, hmatch⟩ := htop
  have hany : matchesAny ids p = true := by
    unfold matchesAny
    rw [List.any_eq_true]
    exact ⟨s, hs, hmatch⟩
  have hsplit : hierarchy = topRules ++ lowRules := rfl
  unfold getBestPlanId
  rw [hsplit]
  apply resolvePlan_prefix_const
  · intro r hr
    fin_cases hr <;> rfl
  · have hp' : p = "portfolio" ∨ p = "office-team" ∨ p = "team" ∨
        p = "premium" ∨ p = "unlimited" := by
      simpa [topTierPatterns] using hp
    rcases hp' with rfl | rfl | rfl | rfl | rfl
    · exact ⟨("portfolio", "pln_portfolio-builder-fb6b0fzp"), by simp [topRules], hany⟩
    · exact ⟨("office-team", "pln_portfolio-builder-fb6b0fzp"), by simp [topRules], hany⟩
    · exact ⟨("team", "pln_portfolio-builder-fb6b0fzp"), by simp [topRules], hany⟩
    · exact ⟨("premium", "pln_portfolio-builder-fb6b0fzp"), by simp [topRules], hany⟩
    · exact ⟨("unlimited", "pln_portfolio-builder-fb6b0fzp"), by simp [topRules], hany⟩

/-- Witness for C1: the spec's own example
`["xyz-essentials-123", "xyz-portfolio-456"]` resolves to the
portfolio-builder canonical id. -/
theorem getBestPlanId_top_tier_precedence_w :
    getBestPlanId ["xyz-essentials-123", "xyz-portfolio-456"]
      = some "pln_portfolio-builder-fb6b0fzp" :=
  getBestPlanId_top_tier_precedence _ (by decide) (by decide)

/-- Counterexample for C2 as stated: the one-element list `[""]` is a
non-empty input in which no hierarchy pattern occurs as a substring of any
input string, yet `getBestPlanId` returns `null` (the JS fallback
`activePlanIds[0] || null` treats the empty string as falsy) instead of
the first input string unchanged. -/
theorem getBestPlanId_fallback_cex :
    (∀ r ∈ hierarchy, strContains (lowerStr "") r.1 = false) ∧
    getBestPlanId [""] = none ∧ (none : Option String) ≠ some "" := by
  refine ⟨by decide, by decide, by decide⟩

/-- Claim C2 (amended): `getBestPlanId` never fails: for every non-empty
input list whose FIRST element is a non-empty string and in which no
hierarchy pattern occurs (case-insensitively) as a substring of any input
string, it returns the first input string unchanged; for the empty input
list it returns `none`; and the downstream `getPlanDetails` maps `none` to
the free-tier catalog entry `pln_basic--n5180oor`. (The amendment — first
element non-empty — is forced by `getBestPlanId_fallback_cex`.) -/
theorem getBestPlanId_fallback_amended :
    (∀ (s : String) (rest : List String), s ≠ "" →
       (∀ id ∈ s :: rest, ∀ r ∈ hierarchy, strContains (lowerStr id) r.1 = false) →
       getBestPlanId (s :: rest) = some s) ∧
    getBestPlanId [] = none ∧
    getPlanDetails none = PLANS_basic := by
  refine ⟨?_, rfl, rfl⟩
  intro s rest hs hno
  have hall : ∀ r ∈ hierarchy, matchesAny (s :: rest) r.1 = false := by
    intro r hr
    unfold matchesAny
    rw [List.any_eq_false]
    intro id hid
    simp [hno id hid r hr]
  unfold getBestPlanId
  rw [resolvePlan_no_match hierarchy (s :: rest) hall]
  simp [fallbackFirst, hs]

/-- Witness for C2: the spec's own example `["unrecognized-plan-id"]` is
returned unchanged. -/
theorem getBestPlanId_fallback_amended_w :
    getBestPlanId ["unrecognized-plan-id"] = some "unrecognized-plan-id" :=
  getBestPlanId_fallback_amended.1 "unrecognized-plan-id" [] (by decide) (by decide)

/-- A second `createSession` against a state holding exactly the first
call's record leaves exactly the second record and drops the first id. -/
lemma createSession_twice_aux (u2 : User) (sid1 sid2 : String) (t2 : Nat)
    (s1 : UserSession) (hne : sid1 ≠ sid2) :
    (createSession ⟨[(sid1, s1)], some sid1⟩ u2 sid2 t2).2.store
        = [(sid2, mkSession u2 sid2 t2)] ∧
    storeGet (createSession ⟨[(sid1, s1)], some sid1⟩ u2 sid2 t2).2.store sid1 = none := by
  have hbe : (sid2 == sid1) = false := by
    simp only [beq_eq_false_iff_ne, ne_eq]
    exact fun h => hne h.symm
  constructor
  · simp [createSession, storeSet, storeDelete]
  · simp [createSession, storeSet, storeDelete, storeGet, hbe]

/-- Claim C3: calling `createSession` when the browser already carries a
session cookie first deletes the record referenced by that cookie, so two
`createSession` calls in sequence against a state whose store holds (at
most) the record referenced by the initial cookie leave exactly one
session record — the second one, which is active and unexpired — and the
first call's id no longer resolves. -/
theorem createSession_single_per_cookie (st : SessState) (u1 u2 : User)
    (sid1 sid2 : String) (t1 t2 : Nat)
    (hstore : ∀ kv ∈ st.store, st.cookie = some kv.1)
    (hne : sid1 ≠ sid2) :
    (createSession (createSession st u1 sid1 t1).2 u2 sid2 t2).2.store
        = [(sid2, mkSession u2 sid2 t2)] ∧
    storeGet (createSession (createSession st u1 sid1 t1).2 u2 sid2 t2).2.store sid1
        = none ∧
    (mkSession u2 sid2 t2).isActive = true ∧
    t2 < (mkSession u2 sid2 t2).expiresAt := by
  have h1 : (createSession st u1 sid1 t1).2
      = ⟨[(sid1, mkSession u1 sid1 t1)], some sid1⟩ := by
    obtain ⟨store, cookie⟩ := st
    cases cookie with
    | none =>
      have hnil : store = [] := by
        cases hstl : store with
        | nil => rfl
        | cons kv tl => exact Option.noConfusion (hstore kv (by simp [hstl]))
      subst hnil
      simp [createSession, storeSet, storeDelete]
    | some old =>
      have hdel : storeDelete store old = [] := by
        apply filter_nil_of_false
        intro kv hkv
        have h2 := hstore kv hkv
        simp only [Option.some.injEq] at h2
        rw [← h2]
        exact bne_self_eq_false old
      have hrfl : (createSession ⟨store, some old⟩ u1 sid1 t1).2
          = ⟨storeSet (storeDelete store old) sid1 (mkSession u1 sid1 t1), some sid1⟩ := rfl
      rw [hrfl, hdel]
      rfl
  rw [h1]
  obtain ⟨ha, hb⟩ := createSession_twice_aux u2 sid1 sid2 t2 (mkSession u1 sid1 t1) hne
  refine ⟨ha, hb, rfl, ?_⟩
  simp only [mkSession, SESSION_DURATION_MS]
  omega

/-- Witness for C3: a concrete browser state with an existing cookie and
stored record; after two logins only the second session record remains. -/
theorem createSession_single_per_cookie_w :
    (createSession (createSession stDemo uOne "sid-1" 10).2 uTwo "sid-2" 20).2.store
        = [("sid-2", mkSession uTwo "sid-2" 20)] ∧
    storeGet (createSession (createSession stDemo uOne "sid-1" 10).2 uTwo "sid-2" 20).2.store
        "sid-1" = none ∧
    (mkSession uTwo "sid-2" 20).isActive = true ∧
    20 < (mkSession uTwo "sid-2" 20).expiresAt :=
  createSession_single_per_cookie stDemo uOne uTwo "sid-1" "sid-2" 10 20
    (by decide) (by decide)

/-- Counterexample for C4 as stated: a stored record with
`expiresAt = 100`, `isActive = true`, looked up at `now = 100`.  The claim
says the record is returned iff `now < expiresAt`, which fails here, yet
`getSession` returns the record: the code's invalidity test is the strict
`expiresAt < now`, so a record whose expiry equals "now" is still served. -/
theorem getSession_validity_cex :
    sExpireEq.isActive = true ∧ ¬(100 < sExpireEq.expiresAt) ∧
    ((getSession stExpireEq 100).1).isSome = true := by
  refine ⟨rfl, by decide, by decide⟩

/-- Claim C4 (amended): `getSession` returns a stored session record iff
the record's `isActive` flag is true AND `now ≤ expiresAt` (the code
rejects only `expiresAt < now`, so expiry exactly at "now" still counts
as valid — the amendment forced by `getSession_validity_cex`); when it
returns the record it refreshes `lastAccessed` and rewrites it; when the
record is present but the condition fails, it deletes the record, clears
the cookie and returns none. -/
theorem getSession_validity (st : SessState) (sid : String) (s : UserSession)
    (now : Nat) (hc : st.cookie = some sid) (hs : storeGet st.store sid = some s) :
    ((getSession st now).1.isSome = true ↔ (s.isActive = true ∧ now ≤ s.expiresAt)) ∧
    (s.isActive = true → now ≤ s.expiresAt →
      getSession st now = (some { s with lastAccessed := now },
        ⟨storeSet st.store sid { s with lastAccessed := now }, some sid⟩)) ∧
    (¬(s.isActive = true ∧ now ≤ s.expiresAt) →
      getSession st now = (none, ⟨storeDelete st.store sid, none⟩)) := by
  obtain ⟨store, cookie⟩ := st
  have hc' : cookie = some sid := hc
  subst hc'
  have hs' : storeGet store sid = some s := hs
  by_cases hcond : s.isActive = false ∨ s.expiresAt < now
  · have hg : getSession ⟨store, some sid⟩ now = (none, ⟨storeDelete store sid, none⟩) := by
      simp only [getSession, hs']
      rw [if_pos hcond]
    have hnot : ¬(s.isActive = true ∧ now ≤ s.expiresAt) := by
      rcases hcond with h | h
      · intro hh
        rw [hh.1] at h
        exact Bool.noConfusion h
      · intro hh
        omega
    refine ⟨?_, fun hA hE => absurd ⟨hA, hE⟩ hnot, fun _ => hg⟩
    rw [hg]
    simp [hnot]
  · have hg : getSession ⟨store, some sid⟩ now
        = (some { s with lastAccessed := now },
           ⟨storeSet store sid { s with lastAccessed := now }, some sid⟩) := by
      simp only [getSession, hs']
      rw [if_neg hcond]
    push_neg at hcond
    have hA : s.isActive = true := by
      cases hAb : s.isActive
      · exact absurd hAb hcond.1
      · rfl
    have hE : now ≤ s.expiresAt := hcond.2
    refine ⟨?_, fun _ _ => hg, fun hn => absurd ⟨hA, hE⟩ hn⟩
    rw [hg]
    simp [hA, hE]

/-- Witness for C4: an unexpired active record is returned with its
`lastAccessed` refreshed and rewritten to the store. -/
theorem getSession_validity_w :
    getSession stExpireEq 50
      = (some { sExpireEq with lastAccessed := 50 },
         ⟨storeSet stExpireEq.store "sid" { sExpireEq with lastAccessed := 50 },
          some "sid"⟩) :=
  (getSession_validity stExpireEq "sid" sExpireEq 50 rfl (by decide)).2.1 rfl (by decide)

/-- Claim C5: the remaining-quota computation of the subscription
endpoint reports `-1` (unlimited) whenever the plan limit is `-1`,
regardless of usage, and otherwise reports `max 0 (limit - used)`, which
is never negative; in particular limit 5 with usage 7 reports 0. -/
theorem reportsLeft_quota :
    (∀ u : Int, reportsLeft (-1) u = -1) ∧
    (∀ L u : Int, L ≠ -1 → reportsLeft L u = max 0 (L - u) ∧ 0 ≤ reportsLeft L u) ∧
    reportsLeft 5 7 = 0 := by
  refine ⟨fun u => rfl, fun L u hL => ?_, by decide⟩
  constructor
  · simp [reportsLeft, hL]
  · simp [reportsLeft, hL]

/-- Witness for C5: limit 5 and usage 7 report 0 remaining (never
negative), unlimited (-1) stays -1 under heavy usage. -/
theorem reportsLeft_quota_w :
    reportsLeft 5 7 = 0 ∧ reportsLeft (-1) 1000000 = -1 ∧
    0 ≤ reportsLeft 5 7 ∧ reportsLeft 5 7 = max 0 (5 - 7) :=
  ⟨reportsLeft_quota.2.2, reportsLeft_quota.1 1000000,
   (reportsLeft_quota.2.1 5 7 (by decide)).2, (reportsLeft_quota.2.1 5 7 (by decide)).1⟩

/-- One counting step decomposes as the step from zero added to the
accumulator. -/
lemma countStep_eq (cm cy : Nat) (a : Nat × Nat) (o : Order) :
    countStep cm cy a o
      = (a.1 + (countStep cm cy (0, 0) o).1, a.2 + (countStep cm cy (0, 0) o).2) := by
  unfold countStep
  by_cases h1 : orderInMonth o.date cm cy
  · by_cases h2 : o.report_category = "Property"
    · simp [h1, h2]
    · by_cases h3 : o.report_category = "Suburb"
      · simp [h1, h2, h3]
      · simp [h1, h2, h3]
  · simp [h1]

/-- The counting fold shifts over its accumulator. -/
lemma foldl_countStep (cm cy : Nat) :
    ∀ (l : List Order) (a : Nat × Nat),
      l.foldl (countStep cm cy) a
        = (a.1 + (l.foldl (countStep cm cy) (0, 0)).1,
           a.2 + (l.foldl (countStep cm cy) (0, 0)).2) := by
  intro l
  induction l with
  | nil => intro a; simp
  | cons o tl ih =>
    intro a
    rw [List.foldl_cons, List.foldl_cons, ih (countStep cm cy a o),
      ih (countStep cm cy (0, 0) o), countStep_eq cm cy a o]
    simp [Nat.add_assoc]

/-- The usage count over a concatenation is the componentwise sum. -/
lemma countOrders_append (l1 l2 : List Order) (cm cy : Nat) :
    countOrders (l1 ++ l2) cm cy
      = ((countOrders l1 cm cy).1 + (countOrders l2 cm cy).1,
         (countOrders l1 cm cy).2 + (countOrders l2 cm cy).2) := by
  unfold countOrders
  rw [List.foldl_append]
  exact foldl_countStep cm cy l2 (l1.foldl (countStep cm cy) (0, 0))

/-- Claim C6: an order whose date parses to month `m` and year `y`
contributes to the subscription endpoint's usage count for its category
if and only if `m` is the current calendar month (`cm` is the 0-based
`getMonth()`, so the match is `m = cm + 1`) and `y` the current year:
inserting the order anywhere in the fetched list adds exactly
`if m = cm + 1 ∧ y = cy then 1 else 0` to its category's counter and
leaves the other counter unchanged — in particular an order from a
previous calendar month is excluded however recent it is. -/
theorem usage_month_filter (pre post : List Order) (o : Order) (cm cy m y : Nat)
    (hm : monthOf o.date = some m) (hy : yearOf o.date = some y) :
    (o.report_category = "Property" →
      (countOrders (pre ++ o :: post) cm cy).1
        = (countOrders (pre ++ post) cm cy).1 + (if m = cm + 1 ∧ y = cy then 1 else 0) ∧
      (countOrders (pre ++ o :: post) cm cy).2 = (countOrders (pre ++ post) cm cy).2) ∧
    (o.report_category = "Suburb" →
      (countOrders (pre ++ o :: post) cm cy).2
        = (countOrders (pre ++ post) cm cy).2 + (if m = cm + 1 ∧ y = cy then 1 else 0) ∧
      (countOrders (pre ++ o :: post) cm cy).1 = (countOrders (pre ++ post) cm cy).1) := by
  have hmonth : orderInMonth o.date cm cy = (y == cy && m == cm + 1) := by
    unfold orderInMonth
    rw [hm, hy]
  have hb : (y == cy && m == cm + 1) = decide (m = cm + 1 ∧ y = cy) := by
    by_cases h1 : y = cy <;> by_cases h2 : m = cm + 1 <;> simp [h1, h2]
  have hcons : countOrders (o :: post) cm cy
      = ((countStep cm cy (0, 0) o).1 + (countOrders post cm cy).1,
         (countStep cm cy (0, 0) o).2 + (countOrders post cm cy).2) := by
    unfold countOrders
    rw [List.foldl_cons]
    exact foldl_countStep cm cy post (countStep cm cy (0, 0) o)
  constructor
  · intro hcat
    have hstep : countStep cm cy (0, 0) o
        = ((if m = cm + 1 ∧ y = cy then 1 else 0), 0) := by
      unfold countStep
      rw [hmonth, hb, hcat]
      by_cases hmy : m = cm + 1 ∧ y = cy <;> simp [hmy]
    rw [countOrders_append pre (o :: post) cm cy, countOrders_append pre post cm cy,
      hcons, hstep]
    constructor <;> simp [Nat.add_comm, Nat.add_left_comm, Nat.add_assoc]
  · intro hcat
    have hstep : countStep cm cy (0, 0) o
        = (0, (if m = cm + 1 ∧ y = cy then 1 else 0)) := by
      unfold countStep
      rw [hmonth, hb, hcat]
      by_cases hmy : m = cm + 1 ∧ y = cy <;> simp [hmy]
    rw [countOrders_append pre (o :: post) cm cy, countOrders_append pre post cm cy,
      hcons, hstep]
    constructor <;> simp [Nat.add_comm, Nat.add_left_comm, Nat.add_assoc]

/-- Witness for C6: an order dated 31 December 2024 examined when "now"
is January 2025 (`getMonth() = 0`, year 2025) contributes nothing to the
property counter even though it may be less than 24 hours old. -/
theorem usage_month_filter_w :
    (countOrders ([] ++ Order.mk "Property" "31-12-2024" :: []) 0 2025).1
      = (countOrders ([] ++ []) 0 2025).1 + (if 12 = 0 + 1 ∧ 2024 = 2025 then 1 else 0) ∧
    (countOrders ([] ++ Order.mk "Property" "31-12-2024" :: []) 0 2025).2
      = (countOrders ([] ++ []) 0 2025).2 :=
  (usage_month_filter [] [] ⟨"Property", "31-12-2024"⟩ 0 2025 12 2024
    (by decide) (by decide)).1 rfl

/-- Claim C7: end-to-end — a session on plan `pln_advanced-ni690fz3` with
one `Property` and one `Suburb` order this month (October 2025, i.e.
`getMonth() = 9`) produces plan "Advanced", tier 2, 1/29 property used/
left, 1/19 suburb used/left, CSV export on, priority support off. -/
theorem subscription_advanced_e2e :
    subscriptionGET
        (some ⟨"id1", "user@x.com", "F", "L", ["pln_advanced-ni690fz3"],
               some "pln_advanced-ni690fz3", "ms1"⟩)
        (some [⟨"Property", "05-10-2025"⟩, ⟨"Suburb", "12-10-2025"⟩]) 9 2025
      = ⟨200, true, none,
         some ⟨⟨"pln_advanced-ni690fz3", "Advanced", 2,
                "Extended access with 20 suburb reports and 30 property reports per month"⟩,
               ⟨1, 30, 29, 1, 20, 19⟩,
               ⟨"unlimited", "unlimited", true, false⟩⟩⟩ := by decide

/-- Claim C8: with no authenticated user the subscription endpoint
answers HTTP 401 with body `{success: false, error: "Not authenticated"}`,
whatever the order-history fetch or the current date would have been — the
response carries no subscription payload and does not depend on the fetch
outcome, reflecting that neither the usage fetch nor plan resolution is
performed. -/
theorem subscription_unauthenticated (ordersFetch : Option (List Order)) (cm cy : Nat) :
    subscriptionGET none ordersFetch cm cy
      = ⟨401, false, some "Not authenticated", none⟩ := rfl

/-- Claim C9: `destroySession` with no cookie present leaves the state
untouched (no store mutation) and terminates normally; it always ends
with the cookie cleared, and is idempotent at the public interface. -/
theorem destroySession_idempotent (st : SessState) :
    (st.cookie = none → destroySession st = st) ∧
    (destroySession st).cookie = none ∧
    destroySession (destroySession st) = destroySession st := by
  obtain ⟨store, cookie⟩ := st
  cases cookie with
  | none => exact ⟨fun _ => rfl, rfl, rfl⟩
  | some sid => exact ⟨fun h => Option.noConfusion h, rfl, rfl⟩

/-- Witness for C9: a cookie-less state with a stored record is returned
unchanged. -/
theorem destroySession_idempotent_w :
    destroySession ⟨[("sid", sExpireEq)], none⟩ = ⟨[("sid", sExpireEq)], none⟩ :=
  (destroySession_idempotent ⟨[("sid", sExpireEq)], none⟩).1 rfl

/-- Off the inherited `Object.prototype` names the faithful
`getPlanDetailsJS` agrees with the `Plan`-valued `getPlanDetails` used by
the route embedding. -/
lemma getPlanDetailsJS_agrees (planId : Option String)
    (h : ∀ pid, planId = some pid → pid ∉ protoProps) :
    getPlanDetailsJS planId = PropValue.catalogEntry (getPlanDetails planId) := by
  cases planId with
  | none => rfl
  | some pid =>
    have hp : pid ∉ protoProps := h pid rfl
    cases hk : PLANS_lookup pid with
    | some p => simp [getPlanDetailsJS, getPlanDetails, PLANS_index, hk]
    | none =>
      simp [getPlanDetailsJS, getPlanDetails, PLANS_index, hk, hp]
      split_ifs <;> rfl

/-- Counterexample for C10 as stated: `"toString"` is not a key of the
`PLANS` catalog and contains none of the three name fragments, yet the
JS `in` operator is true for it via the prototype chain, so
`getPlanDetails` returns the inherited member `Object.prototype.toString`
— not the free-tier catalog entry. -/
theorem getPlanDetailsJS_prototype_cex :
    PLANS_lookup "toString" = none ∧
    strContains "toString" "portfolio" = false ∧
    strContains "toString" "advanced" = false ∧
    strContains "toString" "essentials" = false ∧
    getPlanDetailsJS (some "toString") = PropValue.inherited "toString" ∧
    getPlanDetailsJS (some "toString") ≠ PropValue.catalogEntry PLANS_basic := by
  decide

/-- Claim C10 (amended): every plan id that is not a key of the `PLANS`
catalog, is not a property name inherited from `Object.prototype` (the
amendment forced by `getPlanDetailsJS_prototype_cex`: on those names the
JS `in` test succeeds and the inherited member is returned instead), and
contains none of `portfolio`, `advanced`, `essentials` as a
case-sensitive substring is resolved by `getPlanDetails` to the free-tier
entry, whose tier and both quotas are zero. -/
theorem getPlanDetailsJS_unknown_free (pid : String)
    (hk : PLANS_lookup pid = none)
    (hproto : pid ∉ protoProps)
    (h1 : strContains pid "portfolio" = false)
    (h2 : strContains pid "advanced" = false)
    (h3 : strContains pid "essentials" = false) :
    getPlanDetailsJS (some pid) = PropValue.catalogEntry PLANS_basic ∧
    PLANS_basic.tier = 0 ∧ PLANS_basic.suburbReports = 0 ∧
    PLANS_basic.propertyReports = 0 := by
  refine ⟨?_, rfl, rfl, rfl⟩
  simp [getPlanDetailsJS, PLANS_index, hk, hproto, h1, h2, h3]

/-- Witness for C10: the unmapped resolver output
`"unrecognized-plan-id"` (no catalog key, no prototype name, no fragment)
lands on the free-tier catalog entry. -/
theorem getPlanDetailsJS_unknown_free_w :
    getPlanDetailsJS (some "unrecognized-plan-id")
        = PropValue.catalogEntry PLANS_basic ∧
    PLANS_basic.tier = 0 ∧ PLANS_basic.suburbReports = 0 ∧
    PLANS_basic.propertyReports = 0 :=
  getPlanDetailsJS_unknown_free "unrecognized-plan-id"
    (by decide) (by decide) (by decide) (by decide) (by decide)

end Mib
